import Mathlib

/-!
Shallow embedding of the subscription-activation core of the VPN-bot
repository: the ledger rows (src/backend/models.py), the webhook handler and
admin extension endpoint (src/backend/main.py), the provisioning client
(src/backend/xui_client.py), and the bot extension-day validation flow
(src/bot/main.py).

Modelling conventions:
- timestamps are integers (seconds); a timedelta of d days is d * 86400;
- monetary amounts in the backend are integers (the source uses floats but
  only adds and compares them); the bot price derivation, which divides,
  uses Rat;
- the database session is a record of row lists; a mutation of an ORM row
  followed by commit is an in-place functional update of the matching row
  (external payment ids and user ids are unique-indexed in models.py);
- each call of log_action in the source commits, so every returned state is
  the committed state;
- the remote 3X-UI panel is an oracle giving, per inbound id, the outcome of
  the addClient and updateClient requests (success payload or error text).
-/

namespace VpnBot

/-- A timedelta of d whole days, in seconds. -/
def days (d : Int) : Int := d * 86400

/-- Log row (models.py, class Log): level, message, source. -/
structure LogEntry where
  level : String
  message : String
  source : String
deriving Repr, DecidableEq

/-- One per-endpoint provisioning outcome appended by
create_or_update_client (xui_client.py lines 112-123).  The source stores
the success payload under a result key and the failure text under an error
key; both are the detail payload here. -/
structure EndpointResult where
  inbound_id : Nat
  status : String
  detail : String
deriving Repr, DecidableEq

/-- The dict returned by create_or_update_client (xui_client.py line 125). -/
structure ProvisionResult where
  email : String
  expiry_time : Int
  results : List EndpointResult
deriving Repr, DecidableEq

/-- User row (models.py, class User).  config_links holds the JSON-encoded
provisioning result; the model stores the structured value that is
serialized there. -/
structure User where
  id : Nat
  telegram_id : String
  email : String
  subscription_active : Bool
  subscription_end_date : Option Int
  total_purchases : Int
  renewal_count : Nat
  config_links : Option ProvisionResult
deriving Repr, DecidableEq

/-- Payment row (models.py, class Payment).  status is a free string, as in
the source, because the webhook handler assigns the incoming status string
verbatim. -/
structure Payment where
  yookassa_payment_id : String
  user_id : Nat
  amount : Int
  currency : String
  status : String
  tariff_id : Nat
  paid_at : Option Int
deriving Repr, DecidableEq

/-- Tariff row (models.py, class Tariff).  inbound_ids is stored as a
comma-separated string in the source and parsed to an int list at the
webhook call site (main.py line 360); the model carries the parsed list. -/
structure Tariff where
  id : Nat
  name : String
  price : Int
  duration_days : Int
  inbound_ids : List Nat
  active : Bool
deriving Repr, DecidableEq

/-- The ledger database: one list per table. -/
structure DB where
  users : List User
  payments : List Payment
  tariffs : List Tariff
  logs : List LogEntry
deriving Repr, DecidableEq

/-- Outcome of the remote panel for one inbound id: the addClient call and
the updateClient call each either return a response payload or raise. -/
structure XUIRemote where
  add_result : Nat → Except String String
  update_result : Nat → Except String String

/-- Configuration visible to the webhook handler: whether XUI_URL and
XUI_TOKEN are set (main.py line 359) and the remote panel behaviour. -/
structure WebhookEnv where
  xui_configured : Bool
  remote : XUIRemote

/-- HTTP-level outcome of a handler: a JSON ok body or a raised
HTTPException with a status code. -/
inductive ApiResponse where
  | ok
  | httpError (code : Nat)
deriving Repr, DecidableEq

/-- The parsed webhook request body: request.json() either raises (malformed)
or yields a dict from which object.id and object.status are extracted,
each possibly absent (main.py lines 325-327). -/
inductive WebhookBody where
  | malformed
  | parsed (payment_id : Option String) (status : Option String)
deriving Repr, DecidableEq

/-- log_action (main.py lines 124-128): append one Log row and commit. -/
def log_action (level message source : String) (db : DB) : DB :=
  { db with logs := db.logs ++ [{ level := level, message := message, source := source }] }

/-- db.query(Payment).filter(Payment.yookassa_payment_id == pid).first() -/
def findPayment (db : DB) (pid : String) : Option Payment :=
  db.payments.find? fun p => p.yookassa_payment_id = pid

/-- db.query(User).filter(User.id == uid).first() -/
def findUser (db : DB) (uid : Nat) : Option User :=
  db.users.find? fun u => u.id = uid

/-- db.query(Tariff).filter(Tariff.id == tid).first() -/
def findTariff (db : DB) (tid : Nat) : Option Tariff :=
  db.tariffs.find? fun t => t.id = tid

/-- Mutating the first payment row matching the external id, then
committing: the ORM mutates the object returned by first(). -/
def updateFirstPayment : List Payment → String → (Payment → Payment) → List Payment
  | [], _, _ => []
  | p :: ps, pid, f =>
      if p.yookassa_payment_id = pid then f p :: ps
      else p :: updateFirstPayment ps pid f

/-- Mutating the first user row matching the id, then committing. -/
def updateFirstUser : List User → Nat → (User → User) → List User
  | [], _, _ => []
  | u :: us, uid, f =>
      if u.id = uid then f u :: us
      else u :: updateFirstUser us uid f

def updatePaymentRow (db : DB) (pid : String) (f : Payment → Payment) : DB :=
  { db with payments := updateFirstPayment db.payments pid f }

def updateUserRow (db : DB) (uid : Nat) (f : User → User) : DB :=
  { db with users := updateFirstUser db.users uid f }

/-- The subscription-extension arithmetic, written identically at main.py
lines 174-177 (admin extend) and lines 349-352 (webhook activation):
if user.subscription_end_date and user.subscription_end_date > now then
add the days to the current end, else start from now.  A present datetime
is always truthy, so the present-and-future test is the option match plus
the strict comparison. -/
def extendEnd (current_end : Option Int) (add_days : Int) (now : Int) : Int :=
  match current_end with
  | some e => if now < e then e + days add_days else now + days add_days
  | none => now + days add_days

/-- calculate_expiry_timestamp (xui_client.py lines 102-105):
(now + days).timestamp() * 1000, the panel expects milliseconds. -/
def calculate_expiry_timestamp (now : Int) (d : Int) : Int :=
  (now + days d) * 1000

/-- The per-inbound body of the loop in create_or_update_client
(xui_client.py lines 112-123): try add_client; on any exception try
update_client; on any exception record an error entry carrying the text of
the update failure. -/
def provisionStep (remote : XUIRemote) (i : Nat) : EndpointResult :=
  match remote.add_result i with
  | Except.ok r => { inbound_id := i, status := "created", detail := r }
  | Except.error _ =>
      match remote.update_result i with
      | Except.ok r => { inbound_id := i, status := "updated", detail := r }
      | Except.error e => { inbound_id := i, status := "error", detail := e }

/-- create_or_update_client (xui_client.py lines 107-125): compute the
expiry timestamp once, loop over the inbound ids in order appending one
result each, and return the collected dict.  Per-endpoint exceptions are
caught inside the loop, so the call returns for every oracle. -/
def create_or_update_client (remote : XUIRemote) (now : Int) (inbound_ids : List Nat)
    (email : String) (d : Int) : ProvisionResult :=
  let expiry_time := calculate_expiry_timestamp now d
  { email := email
    expiry_time := expiry_time
    results := inbound_ids.map (provisionStep remote) }

/-- yookassa_webhook (main.py lines 322-377).  The whole body runs inside
try/except Exception; HTTPException derives from Exception, so the 400
raised for a falsy payment id or status (line 330) is caught by the blanket
handler at line 375, which logs an ERROR row and raises HTTPException 500.
A malformed JSON body raises inside request.json() with the same catch.
Per-endpoint provisioning failures are already caught inside
create_or_update_client and do not reach this handler. -/
def yookassa_webhook (env : WebhookEnv) (now : Int) (body : WebhookBody) (db : DB) :
    DB × ApiResponse :=
  match body with
  | WebhookBody.malformed =>
      (log_action "ERROR" "Webhook processing failed: malformed body" "WEBHOOK" db,
       ApiResponse.httpError 500)
  | WebhookBody.parsed payment_id? status? =>
      match payment_id?, status? with
      | some payment_id, some status =>
          if payment_id = "" ∨ status = "" then
            (log_action "ERROR" "Webhook processing failed: Invalid webhook data" "WEBHOOK" db,
             ApiResponse.httpError 500)
          else
            match findPayment db payment_id with
            | none =>
                (log_action "WARNING" ("Received webhook for unknown payment " ++ payment_id)
                   "WEBHOOK" db,
                 ApiResponse.ok)
            | some payment =>
                let old_status := payment.status
                let db1 := updatePaymentRow db payment_id fun p => { p with status := status }
                if status = "succeeded" then
                  let db2 := updatePaymentRow db1 payment_id fun p => { p with paid_at := some now }
                  match findUser db2 payment.user_id, findTariff db2 payment.tariff_id with
                  | some user, some tariff =>
                      let newEnd := extendEnd user.subscription_end_date tariff.duration_days now
                      let db3 := updateUserRow db2 user.id fun u =>
                        { u with
                            subscription_end_date := some newEnd
                            subscription_active := true
                            total_purchases := u.total_purchases + tariff.price
                            renewal_count := u.renewal_count + 1 }
                      let db4 :=
                        if env.xui_configured then
                          let blob := create_or_update_client env.remote now tariff.inbound_ids
                            user.email tariff.duration_days
                          updateUserRow db3 user.id fun u => { u with config_links := some blob }
                        else db3
                      let db5 := log_action "INFO"
                        ("Activated subscription for user " ++ user.telegram_id ++
                         ", payment " ++ payment_id) "WEBHOOK" db4
                      (log_action "INFO"
                         ("Payment " ++ payment_id ++ " status changed from " ++ old_status ++
                          " to " ++ status) "WEBHOOK" db5,
                       ApiResponse.ok)
                  | _, _ =>
                      (log_action "INFO"
                         ("Payment " ++ payment_id ++ " status changed from " ++ old_status ++
                          " to " ++ status) "WEBHOOK" db2,
                       ApiResponse.ok)
                else
                  (log_action "INFO"
                     ("Payment " ++ payment_id ++ " status changed from " ++ old_status ++
                      " to " ++ status) "WEBHOOK" db1,
                   ApiResponse.ok)
      | _, _ =>
          (log_action "ERROR" "Webhook processing failed: Invalid webhook data" "WEBHOOK" db,
           ApiResponse.httpError 500)

/-- extend_user_subscription (main.py lines 163-184): 404 when the user is
absent; otherwise apply the extension arithmetic, set the active flag,
increment renewal_count (total_purchases is untouched), commit, log. -/
def extend_user_subscription (now : Int) (user_id : Nat) (d : Int) (db : DB) :
    DB × ApiResponse :=
  match findUser db user_id with
  | none => (db, ApiResponse.httpError 404)
  | some u =>
      let db1 := updateUserRow db user_id fun w =>
        { w with
            subscription_end_date := some (extendEnd w.subscription_end_date d now)
            subscription_active := true
            renewal_count := w.renewal_count + 1 }
      (log_action "INFO"
         ("Extended subscription for user " ++ u.telegram_id ++ " by some days") "ADMIN" db1,
       ApiResponse.ok)

/-- Does a webhook delivery reach the activation branch (known payment,
succeeded status, owning user and tariff both resolve)?  Spec-side
predicate used to state how many log rows a delivery appends. -/
def activatesSubscription (db : DB) (body : WebhookBody) : Bool :=
  match body with
  | WebhookBody.malformed => false
  | WebhookBody.parsed payment_id? status? =>
      match payment_id?, status? with
      | some payment_id, some status =>
          if payment_id = "" ∨ status = "" then false
          else if status = "succeeded" then
            match findPayment db payment_id with
            | some p => (findUser db p.user_id).isSome && (findTariff db p.tariff_id).isSome
            | none => false
          else false
      | _, _ => false

/-- The subset of a tariff dict the bot extension flow reads
(src/bot/main.py line 170): price and duration_days.  Prices are rationals
here because the flow divides. -/
structure BotTariff where
  price : Rat
  duration_days : Nat
deriving Repr, DecidableEq

/-- What the bot answers to an extension-day message. -/
inductive ExtendReply where
  | offer (d : Int) (total_price : Rat)
  | no_tariffs
  | invalid_input
deriving Repr, DecidableEq

/-- The finite-state-machine position of one bot session after handling a
message; process_extend_days always calls state.clear() at function level
(src/bot/main.py line 187), so handling ends in the idle state. -/
inductive BotState where
  | idle
  | waiting_for_days
deriving Repr, DecidableEq

/-- Decimal value of a digit string. -/
def digitsVal (cs : List Char) : Nat :=
  cs.foldl (fun a c => a * 10 + (c.toNat - 48)) 0

/-- ASCII whitespace, the common case of what Python str.strip removes. -/
def isSpaceChar (c : Char) : Bool := c = ' ' ∨ c = '\t' ∨ c = '\n' ∨ c = '\r'

/-- Strip leading and trailing whitespace. -/
def pyStrip (cs : List Char) : List Char :=
  ((cs.dropWhile isSpaceChar).reverse.dropWhile isSpaceChar).reverse

/-- Python int(str) on the message text (src/bot/main.py line 162):
surrounding whitespace is stripped, an optional single sign precedes one or
more decimal digits; anything else raises ValueError, modelled as none.
Digit-group underscores and non-ASCII decimal digits, which Python also
accepts, are not modelled; no claim depends on them. -/
def pyInt (s : String) : Option Int :=
  match pyStrip s.data with
  | [] => none
  | '+' :: rest =>
      if rest.isEmpty then none
      else if rest.all Char.isDigit then some (digitsVal rest) else none
  | '-' :: rest =>
      if rest.isEmpty then none
      else if rest.all Char.isDigit then some (-(digitsVal rest : Int)) else none
  | cs =>
      if cs.all Char.isDigit then some (digitsVal cs) else none

/-- process_extend_days (src/bot/main.py lines 159-187): parse the day
count, raise ValueError when it is below 1 or above 365 (caught by the same
handler as a parse failure, answering the validation message), otherwise
derive the price from the first active tariff as price / duration_days *
days and offer it; with no tariffs available answer the unavailable
message.  state.clear() runs on every path.  The tariffs argument is the
list of active tariffs the backend returned (an API failure yields the
empty list, falsy like an empty response).  The source's float division is
exact rational division here; a tariff with duration_days = 0 would raise
ZeroDivisionError in Python while Rat division yields 0, and published
tariffs have positive durations. -/
def process_extend_days (tariffs : List BotTariff) (text : String) :
    ExtendReply × BotState :=
  match pyInt text with
  | none => (ExtendReply.invalid_input, BotState.idle)
  | some d =>
      if d < 1 ∨ d > 365 then (ExtendReply.invalid_input, BotState.idle)
      else
        match tariffs with
        | [] => (ExtendReply.no_tariffs, BotState.idle)
        | t0 :: _ =>
            let price_per_day : Rat := t0.price / (t0.duration_days : Rat)
            (ExtendReply.offer d (price_per_day * (d : Rat)), BotState.idle)

/-- A remote panel on which every request fails. -/
def downRemote : XUIRemote :=
  { add_result := fun _ => Except.error "connection refused"
    update_result := fun _ => Except.error "connection refused" }

/-- Environment with no XUI configuration (XUI_URL / XUI_TOKEN unset). -/
def envNoXui : WebhookEnv := { xui_configured := false, remote := downRemote }

/-- Environment with XUI configured but the panel down. -/
def envXuiDown : WebhookEnv := { xui_configured := true, remote := downRemote }

/-- Fixture: a user who already completed one 30-day purchase. -/
def exUser : User :=
  { id := 1
    telegram_id := "42"
    email := "42@vpn.local"
    subscription_active := true
    subscription_end_date := some (days 100)
    total_purchases := 299
    renewal_count := 1
    config_links := none }

/-- Fixture: the payment behind that purchase, already succeeded. -/
def exPaymentSucceeded : Payment :=
  { yookassa_payment_id := "p1"
    user_id := 1
    amount := 299
    currency := "RUB"
    status := "succeeded"
    tariff_id := 7
    paid_at := some 111 }

/-- Fixture: a second, still pending payment of the same user. -/
def exPaymentPending : Payment :=
  { yookassa_payment_id := "p2"
    user_id := 1
    amount := 299
    currency := "RUB"
    status := "pending"
    tariff_id := 7
    paid_at := none }

/-- Fixture: the 30-day tariff both payments reference. -/
def exTariff : Tariff :=
  { id := 7
    name := "Month"
    price := 299
    duration_days := 30
    inbound_ids := [3, 4]
    active := true }

/-- Fixture database with the already-succeeded payment. -/
def exDB1 : DB :=
  { users := [exUser]
    payments := [exPaymentSucceeded]
    tariffs := [exTariff]
    logs := [] }

/-- Fixture database with the pending payment. -/
def exDB2 : DB :=
  { users := [exUser]
    payments := [exPaymentPending]
    tariffs := [exTariff]
    logs := [] }

/-- Fixture: a user 10 days into an active 30-day period (bought at T = 0,
current end T + 30d). -/
def exUserActive30 : User :=
  { id := 2
    telegram_id := "77"
    email := "77@vpn.local"
    subscription_active := true
    subscription_end_date := some (days 30)
    total_purchases := 299
    renewal_count := 1
    config_links := none }

/-- Fixture: that user's second 30-day purchase, still pending. -/
def exPaymentSecond : Payment :=
  { yookassa_payment_id := "p3"
    user_id := 2
    amount := 299
    currency := "RUB"
    status := "pending"
    tariff_id := 7
    paid_at := none }

/-- Fixture database for the stacking scenario. -/
def exDB3 : DB :=
  { users := [exUserActive30]
    payments := [exPaymentSecond]
    tariffs := [exTariff]
    logs := [] }

/-! Helper lemmas about the state operations. -/

@[simp] theorem users_log_action (l m s : String) (db : DB) :
    (log_action l m s db).users = db.users := rfl

@[simp] theorem payments_log_action (l m s : String) (db : DB) :
    (log_action l m s db).payments = db.payments := rfl

@[simp] theorem tariffs_log_action (l m s : String) (db : DB) :
    (log_action l m s db).tariffs = db.tariffs := rfl

@[simp] theorem logs_log_action (l m s : String) (db : DB) :
    (log_action l m s db).logs = db.logs ++ [{ level := l, message := m, source := s }] := rfl

@[simp] theorem users_updatePaymentRow (db : DB) (pid : String) (f : Payment → Payment) :
    (updatePaymentRow db pid f).users = db.users := rfl

@[simp] theorem tariffs_updatePaymentRow (db : DB) (pid : String) (f : Payment → Payment) :
    (updatePaymentRow db pid f).tariffs = db.tariffs := rfl

@[simp] theorem logs_updatePaymentRow (db : DB) (pid : String) (f : Payment → Payment) :
    (updatePaymentRow db pid f).logs = db.logs := rfl

@[simp] theorem payments_updateUserRow (db : DB) (uid : Nat) (f : User → User) :
    (updateUserRow db uid f).payments = db.payments := rfl

@[simp] theorem tariffs_updateUserRow (db : DB) (uid : Nat) (f : User → User) :
    (updateUserRow db uid f).tariffs = db.tariffs := rfl

@[simp] theorem logs_updateUserRow (db : DB) (uid : Nat) (f : User → User) :
    (updateUserRow db uid f).logs = db.logs := rfl

@[simp] theorem findUser_updatePaymentRow (db : DB) (pid : String) (f : Payment → Payment)
    (uid : Nat) : findUser (updatePaymentRow db pid f) uid = findUser db uid := rfl

@[simp] theorem findTariff_updatePaymentRow (db : DB) (pid : String) (f : Payment → Payment)
    (tid : Nat) : findTariff (updatePaymentRow db pid f) tid = findTariff db tid := rfl

theorem find?_updateFirstPayment (ps : List Payment) (pid : String) (f : Payment → Payment)
    (hf : ∀ q, (f q).yookassa_payment_id = q.yookassa_payment_id) :
    (updateFirstPayment ps pid f).find? (fun q => q.yookassa_payment_id = pid)
      = (ps.find? (fun q => q.yookassa_payment_id = pid)).map f := by
  induction ps with
  | nil => rfl
  | cons p ps ih =>
      by_cases h : p.yookassa_payment_id = pid
      · simp [updateFirstPayment, h, List.find?, hf p]
      · simp [updateFirstPayment, h, List.find?, ih]

theorem findPayment_updatePaymentRow (db : DB) (pid : String) (f : Payment → Payment)
    (hf : ∀ q, (f q).yookassa_payment_id = q.yookassa_payment_id) :
    findPayment (updatePaymentRow db pid f) pid = (findPayment db pid).map f :=
  find?_updateFirstPayment db.payments pid f hf

theorem provisionStep_inbound_id (remote : XUIRemote) (i : Nat) :
    (provisionStep remote i).inbound_id = i := by
  unfold provisionStep
  cases remote.add_result i with
  | ok r => rfl
  | error e =>
      cases remote.update_result i with
      | ok r => rfl
      | error e2 => rfl

theorem provisionStep_status (remote : XUIRemote) (i : Nat) :
    (provisionStep remote i).status = "created" ∨ (provisionStep remote i).status = "updated" ∨
      (provisionStep remote i).status = "error" := by
  unfold provisionStep
  cases remote.add_result i with
  | ok r => exact Or.inl rfl
  | error e =>
      cases remote.update_result i with
      | ok r => exact Or.inr (Or.inl rfl)
      | error e2 => exact Or.inr (Or.inr rfl)

theorem provisionStep_of_both_error (remote : XUIRemote) (i : Nat) (ea eu : String)
    (ha : remote.add_result i = Except.error ea) (hu : remote.update_result i = Except.error eu) :
    provisionStep remote i = { inbound_id := i, status := "error", detail := eu } := by
  unfold provisionStep
  rw [ha, hu]

theorem provision_results_all_error (remote : XUIRemote) (ibs : List Nat)
    (h : ∀ i ∈ ibs, (∃ e, remote.add_result i = Except.error e) ∧
           (∃ e, remote.update_result i = Except.error e)) :
    ∀ x ∈ ibs.map (provisionStep remote), x.status = "error" := by
  intro x hx
  obtain ⟨i, hi, rfl⟩ := List.mem_map.mp hx
  obtain ⟨⟨ea, ha⟩, ⟨eu, hu⟩⟩ := h i hi
  rw [provisionStep_of_both_error remote i ea eu ha hu]

@[simp] theorem findPayment_log_action (l m s : String) (db : DB) (pid : String) :
    findPayment (log_action l m s db) pid = findPayment db pid := rfl

/-- Claim C1: the spec asserts that a webhook delivery carrying a terminal
status a payment already holds performs no activation, leaving
subscriptionEndAt, totalPurchased and renewalCount unchanged.  The handler
at main.py lines 338-371 has no already-terminal guard, so evaluating it at
the failing input (payment p1 already succeeded, a second succeeded
delivery 10 days in) re-runs activation: the end date is extended again by
30 days, totalPurchased grows from 299 to 598, renewalCount from 1 to 2,
and paidAt is overwritten.  This refutes the claimed idempotence on the
code as written. -/
theorem c1_duplicate_succeeded_reactivates :
    (yookassa_webhook envNoXui (days 10)
        (WebhookBody.parsed (some "p1") (some "succeeded")) exDB1).1.users
      = [{ exUser with
             subscription_end_date := some (days 130)
             total_purchases := 598
             renewal_count := 2 }] ∧
    (yookassa_webhook envNoXui (days 10)
        (WebhookBody.parsed (some "p1") (some "succeeded")) exDB1).1.payments
      = [{ exPaymentSucceeded with paid_at := some (days 10) }] := by
  constructor <;> rfl

/-- Claim C2: the spec asserts that once a payment is succeeded or canceled
no webhook delivery changes its status and that paidAt, set at the
succeeded transition, is never overwritten.  Evaluated at the failing
inputs: a canceled delivery for the already-succeeded payment p1 rewrites
its status to canceled, and a repeated succeeded delivery rewrites paidAt
from 111 to day 10.  Both parts of the claimed invariant fail on the code
as written. -/
theorem c2_terminal_status_not_preserved :
    (yookassa_webhook envNoXui (days 10)
        (WebhookBody.parsed (some "p1") (some "canceled")) exDB1).1.payments
      = [{ exPaymentSucceeded with status := "canceled" }] ∧
    (yookassa_webhook envNoXui (days 10)
        (WebhookBody.parsed (some "p1") (some "succeeded")) exDB1).1.payments
      = [{ exPaymentSucceeded with paid_at := some (days 10) }] := by
  constructor <;> rfl

/-- Claim C7: the spec asserts a malformed body or a missing payment id or
status string yields a client error (4xx) surfaced to the caller.  In the
source the HTTPException(400) raised at main.py line 330 is itself an
Exception, so the blanket handler at line 375 catches it and raises
HTTPException(500): every such request is answered with a server error, not
a 4xx.  The no-ledger-mutation half of the claim does hold: only an ERROR
log row is written. -/
theorem c7_validation_rejection_escalates_to_500 :
    ((yookassa_webhook envNoXui 0 WebhookBody.malformed exDB1).2
       = ApiResponse.httpError 500) ∧
    ((yookassa_webhook envNoXui 0 (WebhookBody.parsed none (some "succeeded")) exDB1).2
       = ApiResponse.httpError 500) ∧
    ((yookassa_webhook envNoXui 0 (WebhookBody.parsed (some "p1") none) exDB1).2
       = ApiResponse.httpError 500) ∧
    ((yookassa_webhook envNoXui 0 (WebhookBody.parsed (some "") (some "succeeded")) exDB1).2
       = ApiResponse.httpError 500) ∧
    ((yookassa_webhook envNoXui 0 (WebhookBody.parsed none (some "succeeded")) exDB1).1.users
       = exDB1.users) ∧
    ((yookassa_webhook envNoXui 0 (WebhookBody.parsed none (some "succeeded")) exDB1).1.payments
       = exDB1.payments) := by
  refine ⟨rfl, rfl, rfl, rfl, rfl, rfl⟩

/-- Claim C8, counterexample: the spec asserts every webhook delivery
produces exactly one audit log entry.  A succeeded delivery for the known
pending payment p2, whose user and tariff resolve, appends two entries
(the activation entry of main.py line 367 and the transition entry of line
371), starting from an empty log table. -/
theorem c8_counterexample_two_logs_on_activation :
    (yookassa_webhook envNoXui 0
        (WebhookBody.parsed (some "p2") (some "succeeded")) exDB2).1.logs.length = 2 := by
  rfl

/-- Claim C8, amended: every webhook delivery appends at least one and at
most two audit log entries: exactly two when a succeeded delivery reaches a
known payment whose owning user and tariff both resolve (the activation
entry plus the status-transition entry), and exactly one in every other
case (malformed body, missing fields, unknown payment, non-succeeded
status, or unresolvable user/tariff). -/
theorem c8_log_count (env : WebhookEnv) (now : Int) (body : WebhookBody) (db : DB) :
    (yookassa_webhook env now body db).1.logs.length =
      db.logs.length + (if activatesSubscription db body then 2 else 1) := by
  cases body with
  | malformed => simp [yookassa_webhook, activatesSubscription]
  | parsed pid? st? =>
      cases pid? with
      | none => cases st? <;> simp [yookassa_webhook, activatesSubscription]
      | some pid =>
          cases st? with
          | none => simp [yookassa_webhook, activatesSubscription]
          | some st =>
              by_cases h1 : pid = "" ∨ st = ""
              · simp [yookassa_webhook, activatesSubscription, h1]
              · obtain ⟨hp, hs⟩ := not_or.mp h1
                cases hf : findPayment db pid with
                | none => simp [yookassa_webhook, activatesSubscription, h1, hp, hs, hf]
                | some p =>
                    by_cases h2 : st = "succeeded"
                    · subst h2
                      cases hu : findUser db p.user_id with
                      | none => simp [yookassa_webhook, activatesSubscription, h1, hp, hs, hf, hu]
                      | some user =>
                          cases ht : findTariff db p.tariff_id with
                          | none =>
                              simp [yookassa_webhook, activatesSubscription, h1, hp, hs, hf, hu,
                                ht]
                          | some tariff =>
                              by_cases hx : env.xui_configured <;>
                                simp [yookassa_webhook, activatesSubscription, h1, hp, hs, hf, hu,
                                  ht, hx]
                    · simp [yookassa_webhook, activatesSubscription, h1, hp, hs, hf, h2]

/-- Witness for the amended C8 theorem: a delivery for an unknown payment
id appends exactly one entry. -/
theorem c8_log_count_witness :
    (yookassa_webhook envNoXui 0
        (WebhookBody.parsed (some "nope") (some "succeeded")) exDB2).1.logs.length = 1 :=
  (c8_log_count envNoXui 0 (WebhookBody.parsed (some "nope") (some "succeeded")) exDB2).trans rfl

/-- Claim C3: the extension computation used on the succeeded-webhook path
(main.py lines 349-352) and on the admin extend endpoint (lines 174-177)
yields currentEnd + d days when the stored end exists and is strictly after
now, and now + d days otherwise; the admin endpoint rewrites the user row
with exactly that value; and the spec scenario holds: a second 30-day
purchase delivered at T + 10d while a period ending at T + 30d is active
yields T + 60d, not T + 40d. -/
theorem c3_extension_arithmetic (d now : Int) (hd : 0 < d) :
    (∀ e : Int, now < e → extendEnd (some e) d now = e + days d) ∧
    (∀ e : Int, e ≤ now → extendEnd (some e) d now = now + days d) ∧
    (extendEnd none d now = now + days d) ∧
    (∀ (u : User) (ps : List Payment) (ts : List Tariff) (ls : List LogEntry),
       (extend_user_subscription now u.id d
           { users := [u], payments := ps, tariffs := ts, logs := ls }).1.users
         = [{ u with
                subscription_end_date := some (extendEnd u.subscription_end_date d now)
                subscription_active := true
                renewal_count := u.renewal_count + 1 }]) ∧
    ((yookassa_webhook envNoXui (days 10)
        (WebhookBody.parsed (some "p3") (some "succeeded")) exDB3).1.users.map
        User.subscription_end_date = [some (days 60)]) := by
  refine ⟨?_, ?_, ?_, ?_, ?_⟩
  · intro e he
    simp [extendEnd, he]
  · intro e he
    simp [extendEnd, not_lt.mpr he]
  · rfl
  · intro u ps ts ls
    simp [extend_user_subscription, findUser, List.find?, updateUserRow, updateFirstUser]
  · rfl

/-- Witness for C3 at d = 30, now = 0: a user with no stored end gets
now + 30 days. -/
theorem c3_extension_arithmetic_witness :
    (0 : Int) < 30 ∧ extendEnd none 30 0 = 0 + days 30 :=
  ⟨by norm_num, (c3_extension_arithmetic 30 0 (by norm_num)).2.2.1⟩

/-- Claim C4: with XUI configured and a remote on which the create and the
update call fail for every requested endpoint, a succeeded delivery still
marks the payment succeeded with paidAt set, extends the user's
subscription end, sets the active flag, adds the tariff price to
totalPurchased, increments renewalCount, and stores the per-endpoint
result blob, all of whose entries are error entries, on the user record:
provisioning failure does not roll back the financial transition. -/
theorem c4_provisioning_failure_keeps_ledger (now : Int) (uid tid : Nat)
    (pid tg email tname currency st0 : String)
    (amt price dur : Int) (ibs : List Nat) (endAt : Option Int) (tp : Int) (rc : Nat)
    (cl : Option ProvisionResult) (pa : Option Int) (sa act : Bool)
    (remote : XUIRemote)
    (hpid : pid ≠ "")
    (hfail : ∀ i ∈ ibs, (∃ e, remote.add_result i = Except.error e) ∧
               (∃ e, remote.update_result i = Except.error e)) :
    let u : User := { id := uid, telegram_id := tg, email := email, subscription_active := sa,
                      subscription_end_date := endAt, total_purchases := tp,
                      renewal_count := rc, config_links := cl }
    let p : Payment := { yookassa_payment_id := pid, user_id := uid, amount := amt,
                         currency := currency, status := st0, tariff_id := tid, paid_at := pa }
    let t : Tariff := { id := tid, name := tname, price := price, duration_days := dur,
                        inbound_ids := ibs, active := act }
    let db : DB := { users := [u], payments := [p], tariffs := [t], logs := [] }
    let env : WebhookEnv := { xui_configured := true, remote := remote }
    let out := yookassa_webhook env now (WebhookBody.parsed (some pid) (some "succeeded")) db
    out.2 = ApiResponse.ok ∧
    out.1.payments = [{ p with status := "succeeded", paid_at := some now }] ∧
    ∃ blob, out.1.users = [{ u with
        subscription_end_date := some (extendEnd endAt dur now),
        subscription_active := true,
        total_purchases := tp + price,
        renewal_count := rc + 1,
        config_links := some blob }] ∧
      blob.results.length = ibs.length ∧
      (∀ x ∈ blob.results, x.status = "error") := by
  have h1 : ¬(pid = "" ∨ ("succeeded" : String) = "") := by simp [hpid]
  refine ⟨?_, ?_, ?_⟩
  · simp [yookassa_webhook, h1, hpid, findPayment, findUser, findTariff, List.find?]
  · simp [yookassa_webhook, h1, hpid, findPayment, findUser, findTariff, List.find?,
      updatePaymentRow, updateFirstPayment, updateUserRow, updateFirstUser]
  · refine ⟨create_or_update_client remote now ibs email dur, ?_, ?_, ?_⟩
    · simp [yookassa_webhook, h1, hpid, findPayment, findUser, findTariff, List.find?,
        updatePaymentRow, updateFirstPayment, updateUserRow, updateFirstUser]
    · simp [create_or_update_client]
    · intro x hx
      simp only [create_or_update_client] at hx
      exact provision_results_all_error remote ibs hfail x hx

/-- Witness for C4: a concrete run against the down panel still answers ok. -/
theorem c4_provisioning_failure_keeps_ledger_witness :
    (yookassa_webhook { xui_configured := true, remote := downRemote } 0
        (WebhookBody.parsed (some "w4") (some "succeeded"))
        { users := [{ id := 1, telegram_id := "t", email := "e", subscription_active := false,
                      subscription_end_date := none, total_purchases := 0, renewal_count := 0,
                      config_links := none }],
          payments := [{ yookassa_payment_id := "w4", user_id := 1, amount := 299,
                         currency := "RUB", status := "pending", tariff_id := 7,
                         paid_at := none }],
          tariffs := [{ id := 7, name := "n", price := 299, duration_days := 30,
                        inbound_ids := [3, 4], active := true }],
          logs := [] }).2 = ApiResponse.ok :=
  (c4_provisioning_failure_keeps_ledger 0 1 7 "w4" "t" "e" "n" "RUB" "pending" 299 299 30
      [3, 4] none 0 0 none none false true downRemote (by decide)
      (fun i _ => ⟨⟨"connection refused", rfl⟩, ⟨"connection refused", rfl⟩⟩)).1

/-- Claim C5: for every endpoint list, create_or_update_client returns one
result per requested endpoint, in input order (the result list projects
back to the input list), each tagged created, updated, or error; an
endpoint on which both the create and the update call fail contributes an
error entry while the remaining endpoints are still processed, and the
call returns (it is a total function of the remote oracle, since
per-endpoint exceptions are caught inside the loop). -/
theorem c5_per_endpoint_results (remote : XUIRemote) (now : Int) (ibs : List Nat)
    (email : String) (d : Int) :
    ((create_or_update_client remote now ibs email d).results.length = ibs.length) ∧
    ((create_or_update_client remote now ibs email d).results.map EndpointResult.inbound_id
       = ibs) ∧
    (∀ x ∈ (create_or_update_client remote now ibs email d).results,
       x.status = "created" ∨ x.status = "updated" ∨ x.status = "error") ∧
    (∀ i ∈ ibs, (∃ e, remote.add_result i = Except.error e) →
       (∃ e, remote.update_result i = Except.error e) →
       ∃ x ∈ (create_or_update_client remote now ibs email d).results,
         x.inbound_id = i ∧ x.status = "error") := by
  refine ⟨?_, ?_, ?_, ?_⟩
  · simp [create_or_update_client]
  · simp only [create_or_update_client, List.map_map]
    induction ibs with
    | nil => rfl
    | cons i is ih => simp [Function.comp, provisionStep_inbound_id, ih]
  · intro x hx
    simp only [create_or_update_client] at hx
    obtain ⟨i, hi, rfl⟩ := List.mem_map.mp hx
    exact provisionStep_status remote i
  · intro i hi ha hu
    obtain ⟨ea, ha⟩ := ha
    obtain ⟨eu, hu⟩ := hu
    refine ⟨provisionStep remote i, ?_, ?_, ?_⟩
    · exact List.mem_map_of_mem _ hi
    · rw [provisionStep_of_both_error remote i ea eu ha hu]
    · rw [provisionStep_of_both_error remote i ea eu ha hu]

/-- Witness for C5: two endpoints against the down panel give two results. -/
theorem c5_per_endpoint_results_witness :
    (create_or_update_client downRemote 0 [3, 4] "e" 30).results.length = 2 :=
  ((c5_per_endpoint_results downRemote 0 [3, 4] "e" 30).1).trans rfl

/-- Claim C6: a webhook delivery whose (non-empty) payment id matches no
stored payment is acknowledged with the ok body, writes exactly one
WARNING log row, and mutates no user, payment, or tariff row. -/
theorem c6_unknown_payment_benign (env : WebhookEnv) (now : Int) (pid st : String) (db : DB)
    (hpid : pid ≠ "") (hst : st ≠ "") (hfind : findPayment db pid = none) :
    (yookassa_webhook env now (WebhookBody.parsed (some pid) (some st)) db).2
      = ApiResponse.ok ∧
    (yookassa_webhook env now (WebhookBody.parsed (some pid) (some st)) db).1.users
      = db.users ∧
    (yookassa_webhook env now (WebhookBody.parsed (some pid) (some st)) db).1.payments
      = db.payments ∧
    (yookassa_webhook env now (WebhookBody.parsed (some pid) (some st)) db).1.tariffs
      = db.tariffs ∧
    (yookassa_webhook env now (WebhookBody.parsed (some pid) (some st)) db).1.logs
      = db.logs ++ [{ level := "WARNING",
                      message := "Received webhook for unknown payment " ++ pid,
                      source := "WEBHOOK" }] := by
  have h1 : ¬(pid = "" ∨ st = "") := by simp [hpid, hst]
  refine ⟨?_, ?_, ?_, ?_, ?_⟩ <;> simp [yookassa_webhook, h1, hfind]

/-- Witness for C6: an unknown id against the empty database. -/
theorem c6_unknown_payment_benign_witness :
    (yookassa_webhook envNoXui 0 (WebhookBody.parsed (some "px") (some "succeeded"))
        { users := [], payments := [], tariffs := [], logs := [] }).2 = ApiResponse.ok :=
  (c6_unknown_payment_benign envNoXui 0 "px" "succeeded"
      { users := [], payments := [], tariffs := [], logs := [] }
      (by decide) (by decide) rfl).1

/-- Claim C9: the bot extension flow accepts a day count iff the text
parses as an integer between 1 and 365 inclusive; handling always returns
to the idle state (no crash); the offered price is the first active
tariff's price divided by its duration in days, times the requested count;
and the spec scenario holds: 0 and 400 are rejected, a non-numeric input
is rejected, 365 is accepted at price 299 / 30 * 365. -/
theorem c9_extend_days_flow :
    (∀ (tariffs : List BotTariff) (text : String),
       ((process_extend_days tariffs text).1 ≠ ExtendReply.invalid_input ↔
         ∃ n, pyInt text = some n ∧ 1 ≤ n ∧ n ≤ 365) ∧
       (process_extend_days tariffs text).2 = BotState.idle) ∧
    (∀ (t0 : BotTariff) (ts : List BotTariff) (text : String) (n : Int),
       pyInt text = some n → 1 ≤ n → n ≤ 365 →
       process_extend_days (t0 :: ts) text
         = (ExtendReply.offer n (t0.price / (t0.duration_days : Rat) * (n : Rat)),
            BotState.idle)) ∧
    process_extend_days [{ price := 299, duration_days := 30 }] "0"
      = (ExtendReply.invalid_input, BotState.idle) ∧
    process_extend_days [{ price := 299, duration_days := 30 }] "400"
      = (ExtendReply.invalid_input, BotState.idle) ∧
    process_extend_days [{ price := 299, duration_days := 30 }] "abc"
      = (ExtendReply.invalid_input, BotState.idle) ∧
    (process_extend_days [{ price := 299, duration_days := 30 }] "365").1
      = ExtendReply.offer 365 ((299 : Rat) / ((30 : Nat) : Rat) * ((365 : Int) : Rat)) := by
  refine ⟨?_, ?_, ?_, ?_, ?_, ?_⟩
  · intro tariffs text
    constructor
    · cases hp : pyInt text with
      | none => simp [process_extend_days, hp]
      | some n =>
          by_cases hr : n < 1 ∨ n > 365
          · simp [process_extend_days, hp, hr]
            omega
          · cases tariffs with
            | nil =>
                simp [process_extend_days, hp, hr]
                omega
            | cons t0 ts =>
                simp [process_extend_days, hp, hr]
                omega
    · cases hp : pyInt text with
      | none => simp [process_extend_days, hp]
      | some n =>
          by_cases hr : n < 1 ∨ n > 365
          · simp [process_extend_days, hp, hr]
          · cases tariffs <;> simp [process_extend_days, hp, hr]
  · intro t0 ts text n hp h1 h365
    have hr : ¬(n < 1 ∨ n > 365) := by omega
    simp [process_extend_days, hp, hr]
  · rfl
  · rfl
  · rfl
  · rfl

/-- Witness for C9: the accepted input 10 against the 299-for-30-days
tariff is offered at the derived per-day price. -/
theorem c9_extend_days_flow_witness :
    process_extend_days [{ price := 299, duration_days := 30 }] "10"
      = (ExtendReply.offer 10 ((299 : Rat) / ((30 : Nat) : Rat) * ((10 : Int) : Rat)),
         BotState.idle) :=
  c9_extend_days_flow.2.1 { price := 299, duration_days := 30 } [] "10" 10 rfl
    (by norm_num) (by norm_num)

/-- Claim C10: a succeeded delivery for a known payment whose owning user
(or tariff) row is absent still rewrites the payment to succeeded with
paidAt set and commits it, while users and tariffs are untouched (so no
extension, counter increment, or provisioning result lands anywhere) and
the only log row written is the status-transition entry, not the
activation entry: the missing reference is silently skipped. -/
theorem c10_missing_user_or_tariff_skipped (env : WebhookEnv) (now : Int) (pid : String)
    (db : DB) (p : Payment) (hpid : pid ≠ "")
    (hfind : findPayment db pid = some p)
    (hmiss : findUser db p.user_id = none ∨ findTariff db p.tariff_id = none) :
    (yookassa_webhook env now (WebhookBody.parsed (some pid) (some "succeeded")) db).2
      = ApiResponse.ok ∧
    (yookassa_webhook env now (WebhookBody.parsed (some pid) (some "succeeded")) db).1.users
      = db.users ∧
    (yookassa_webhook env now (WebhookBody.parsed (some pid) (some "succeeded")) db).1.tariffs
      = db.tariffs ∧
    (∃ q, findPayment (yookassa_webhook env now
            (WebhookBody.parsed (some pid) (some "succeeded")) db).1 pid = some q ∧
          q.status = "succeeded" ∧ q.paid_at = some now) ∧
    (yookassa_webhook env now (WebhookBody.parsed (some pid) (some "succeeded")) db).1.logs
      = db.logs ++ [{ level := "INFO",
                      message := "Payment " ++ pid ++ " status changed from " ++ p.status
                        ++ " to " ++ "succeeded",
                      source := "WEBHOOK" }] := by
  have h1 : ¬(pid = "" ∨ ("succeeded" : String) = "") := by simp [hpid]
  have key : yookassa_webhook env now (WebhookBody.parsed (some pid) (some "succeeded")) db
      = (log_action "INFO"
           ("Payment " ++ pid ++ " status changed from " ++ p.status ++ " to " ++ "succeeded")
           "WEBHOOK"
           (updatePaymentRow (updatePaymentRow db pid fun q => { q with status := "succeeded" })
             pid fun q => { q with paid_at := some now }),
         ApiResponse.ok) := by
    rcases hmiss with hu | ht
    · simp [yookassa_webhook, h1, hpid, hfind, hu]
    · cases hu2 : findUser db p.user_id <;> simp [yookassa_webhook, h1, hpid, hfind, ht, hu2]
  rw [key]
  refine ⟨rfl, rfl, rfl, ?_, by simp⟩
  refine ⟨{ p with status := "succeeded", paid_at := some now }, ?_, rfl, rfl⟩
  have e1 : findPayment (updatePaymentRow db pid fun q => { q with status := "succeeded" }) pid
      = (findPayment db pid).map (fun q => { q with status := "succeeded" }) :=
    findPayment_updatePaymentRow db pid _ (fun q => rfl)
  have e2 : findPayment
        (updatePaymentRow (updatePaymentRow db pid fun q => { q with status := "succeeded" })
          pid fun q => { q with paid_at := some now }) pid
      = (findPayment (updatePaymentRow db pid fun q => { q with status := "succeeded" }) pid).map
          (fun q => { q with paid_at := some now }) :=
    findPayment_updatePaymentRow _ pid _ (fun q => rfl)
  rw [findPayment_log_action, e2, e1, hfind]
  rfl

/-- Witness for C10: the pending payment p2 in a database with no user
rows is still acknowledged. -/
theorem c10_missing_user_or_tariff_skipped_witness :
    (yookassa_webhook envNoXui 5 (WebhookBody.parsed (some "p2") (some "succeeded"))
        { users := [], payments := [exPaymentPending], tariffs := [exTariff], logs := [] }).2
      = ApiResponse.ok :=
  (c10_missing_user_or_tariff_skipped envNoXui 5 "p2"
      { users := [], payments := [exPaymentPending], tariffs := [exTariff], logs := [] }
      exPaymentPending (by decide) rfl (Or.inl rfl)).1

end VpnBot
